import Mathlib

/-!
# ProdForceSeA: the boundary layer of the force operator

Shallow embedding of `source/op/prod_force_se_a_multi_device.cc`:
the constructor of `ProdForceSeAOp` and its `Compute` method, that is the
chain of `OP_REQUIRES` checks, the allocation of the output tensor, the
`assert` block and the call of `ProdForceSeAFunctor`.

Modelling choices.

* A tensor is its shape together with its flat row-major contents; the two
  agree in size (the invariant of a TensorFlow tensor).
* `int` and `int64` quantities are integers (`Int`); `/` is the truncating
  division of C++ (`Int.tdiv`).  The embedding describes executions in which
  no signed 32-bit arithmetic overflows.
* An integer division by zero is undefined behaviour in C++; `Compute` then
  stops with the status `DivisionByZero`.
* `assert` depends on the build: with `NDEBUG` defined it expands to nothing,
  otherwise a false condition aborts the process.  The build is a parameter.
* `allocate_output` belongs to the TensorFlow runtime and may refuse a
  request; whether it accepts a shape is a parameter as well.
* The force kernel (the CPU or GPU launcher) is outside this file; an
  invocation is recorded with the arguments it receives.
-/

namespace ProdForceSeA

/-- The two device types for which the kernel is registered. -/
inductive Device where
  | CPU
  | GPU
deriving DecidableEq

/-- A dense tensor: dimension sizes and flat row-major contents. -/
structure Tensor (α : Type) where
  shape : List Nat
  flat : List α
  wf : flat.length = shape.prod

/-- The rank, `shape().dims()`. -/
def Tensor.dims {α : Type} (t : Tensor α) : Int :=
  (t.shape.length : Int)

/-- The size of dimension `i`, `shape().dim_size(i)`; `Compute` asks for it
only after the rank check of the tensor has passed. -/
def Tensor.dim_size {α : Type} (t : Tensor α) (i : Nat) : Int :=
  ((t.shape.getD i 0 : Nat) : Int)

/-- How an invocation of `Compute` ends. -/
inductive Status where
  | OK
  | InvalidArgument (msg : String)
  | AllocationFailed
  | AssertionFailed (expr : String)
  | DivisionByZero
  | OutOfRangeRead
deriving DecidableEq

/-- The build and runtime the operator runs in. -/
structure Runtime where
  /-- Whether `NDEBUG` is defined, so that `assert` expands to nothing. -/
  NDEBUG : Bool
  /-- Whether `allocate_output` accepts the request for output `index` of
  the given shape. -/
  allocate_output : Nat → List Int → Bool

/-- An output tensor allocated through the context. -/
structure OutputTensor where
  index : Nat
  shape : List Int
deriving DecidableEq

/-- One invocation of `ProdForceSeAFunctor`, with the arguments passed. -/
structure KernelCall (α : Type) where
  device : Device
  force : OutputTensor
  net_deriv : List α
  in_deriv : List α
  nlist : List Int
  nloc : Int
  nall : Int
  nnei : Int
  ndescrpt : Int
  n_a_sel : Int
  n_a_shift : Int
deriving DecidableEq

/-- What an invocation of `Compute` leaves behind in its `OpKernelContext`:
the status, the outputs allocated and the kernel invocations made. -/
structure OpKernelContext (α : Type) where
  status : Status
  outputs : List OutputTensor
  launches : List (KernelCall α)
deriving DecidableEq

/-- The context at the entry of `Compute`. -/
def OpKernelContext.entry {α : Type} : OpKernelContext α :=
  { status := Status.OK, outputs := [], launches := [] }

/-- Leave `Compute` with a status other than `OK`, keeping what was done. -/
def OpKernelContext.stop {α : Type} (context : OpKernelContext α) (s : Status) :
    OpKernelContext α :=
  { context with status := s }

/-- An invocation is rejected: it ends with an `InvalidArgument` error, has
allocated no output tensor and has not invoked the force kernel. -/
def Rejected {α : Type} (context : OpKernelContext α) : Prop :=
  (∃ msg, context.status = Status.InvalidArgument msg) ∧
    context.outputs = [] ∧ context.launches = []

/-- The private members of `ProdForceSeAOp`. -/
structure ProdForceSeAOp where
  device : Device
  n_r_sel : Int
  n_a_sel : Int
  n_a_shift : Int

/-- The constructor: reads the two attributes and sets
`n_a_shift = n_a_sel * 4`. -/
def ProdForceSeAOp.construct (device : Device) (n_a_sel n_r_sel : Int) : ProdForceSeAOp :=
  { device := device, n_r_sel := n_r_sel, n_a_sel := n_a_sel, n_a_shift := n_a_sel * 4 }

/-- The `assert` block of `Compute` (lines 80 to 88), in source order, each
condition with its text. -/
def asserts {α : Type} (force_shape : List Int)
    (net_deriv_tensor in_deriv_tensor : Tensor α) (nlist_tensor : Tensor Int)
    (nframes nloc nall ndescrpt nnei : Int) : List (Bool × String) :=
  [ (decide (nframes = force_shape.getD 0 0),
      "nframes == force_shape.dim_size(0)"),
    (decide (nframes = net_deriv_tensor.dim_size 0),
      "nframes == net_deriv_tensor.shape().dim_size(0)"),
    (decide (nframes = in_deriv_tensor.dim_size 0),
      "nframes == in_deriv_tensor.shape().dim_size(0)"),
    (decide (nframes = nlist_tensor.dim_size 0),
      "nframes == nlist_tensor.shape().dim_size(0)"),
    (decide (nall * 3 = force_shape.getD 1 0),
      "nall * 3 == force_shape.dim_size(1)"),
    (decide (nloc * ndescrpt = net_deriv_tensor.dim_size 1),
      "nloc * ndescrpt == net_deriv_tensor.shape().dim_size(1)"),
    (decide (nloc * ndescrpt * 3 = in_deriv_tensor.dim_size 1),
      "nloc * ndescrpt * 3 == in_deriv_tensor.shape().dim_size(1)"),
    (decide (nloc * nnei = nlist_tensor.dim_size 1),
      "nloc * nnei == nlist_tensor.shape().dim_size(1)"),
    (decide (nnei * 4 = ndescrpt),
      "nnei * 4 == ndescrpt") ]

/-- The first assertion of a block that is false, if there is one. -/
def firstFalse (block : List (Bool × String)) : Option String :=
  (block.find? (fun a => !a.1)).map (fun a => a.2)

/-- The method `ProdForceSeAOp::Compute`. -/
def Compute {α : Type} (rt : Runtime) (op : ProdForceSeAOp)
    (net_deriv_tensor in_deriv_tensor : Tensor α)
    (nlist_tensor natoms_tensor : Tensor Int) : OpKernelContext α :=
  let context : OpKernelContext α := OpKernelContext.entry
  -- set size of the sample
  if ¬ (net_deriv_tensor.dims = 2) then
    context.stop (Status.InvalidArgument "Dim of net deriv should be 2")
  else if ¬ (in_deriv_tensor.dims = 2) then
    context.stop (Status.InvalidArgument "Dim of input deriv should be 2")
  else if ¬ (nlist_tensor.dims = 2) then
    context.stop (Status.InvalidArgument "Dim of nlist should be 2")
  else if ¬ (natoms_tensor.dims = 1) then
    context.stop (Status.InvalidArgument "Dim of natoms should be 1")
  else if ¬ (natoms_tensor.dim_size 0 ≥ 3) then
    context.stop (Status.InvalidArgument
      "number of atoms should be larger than (or equal to) 3")
  else
    match natoms_tensor.flat with
    | nloc :: nall :: _ =>
      let nframes : Int := net_deriv_tensor.dim_size 0
      if nloc = 0 then
        -- the divisions of lines 54 and 55
        context.stop Status.DivisionByZero
      else
        let ndescrpt : Int := Int.tdiv (net_deriv_tensor.dim_size 1) nloc
        let nnei : Int := Int.tdiv (nlist_tensor.dim_size 1) nloc
        -- check the sizes
        if ¬ (nframes = in_deriv_tensor.dim_size 0) then
          context.stop (Status.InvalidArgument "number of samples should match")
        else if ¬ (nframes = nlist_tensor.dim_size 0) then
          context.stop (Status.InvalidArgument "number of samples should match")
        else if ¬ (nloc * ndescrpt * 3 = in_deriv_tensor.dim_size 1) then
          context.stop (Status.InvalidArgument "number of descriptors should match")
        else if ¬ (nnei = op.n_a_sel + op.n_r_sel) then
          context.stop (Status.InvalidArgument "number of neighbors should match")
        else if ¬ (0 = op.n_r_sel) then
          context.stop (Status.InvalidArgument
            "Rotational free only support all-angular information")
        else
          -- create an output tensor
          let force_shape : List Int := [nframes, 3 * nall]
          let context_output_index : Nat := 0
          if ¬ (rt.allocate_output context_output_index force_shape = true) then
            context.stop Status.AllocationFailed
          else
            let force_tensor : OutputTensor :=
              { index := context_output_index, shape := force_shape }
            let context : OpKernelContext α :=
              { context with outputs := context.outputs ++ [force_tensor] }
            match (if rt.NDEBUG then none else
                firstFalse (asserts force_shape net_deriv_tensor in_deriv_tensor
                  nlist_tensor nframes nloc nall ndescrpt nnei)) with
            | some expr => context.stop (Status.AssertionFailed expr)
            | none =>
              { context with
                launches := context.launches ++
                  [{ device := op.device
                     force := force_tensor
                     net_deriv := net_deriv_tensor.flat
                     in_deriv := in_deriv_tensor.flat
                     nlist := nlist_tensor.flat
                     nloc := nloc
                     nall := nall
                     nnei := nnei
                     ndescrpt := ndescrpt
                     n_a_sel := op.n_a_sel
                     n_a_shift := op.n_a_shift }] }
    | _ => context.stop Status.OutOfRangeRead

/-! ## Concrete inputs -/

/-- A tensor of the given shape filled with one value. -/
def Tensor.fill {α : Type} (shape : List Nat) (v : α) : Tensor α :=
  { shape := shape, flat := List.replicate shape.prod v, wf := by simp }

/-- A rank-1 tensor holding the given values. -/
def Tensor.vector {α : Type} (values : List α) : Tensor α :=
  { shape := [values.length], flat := values, wf := by simp }

/-- A runtime whose allocator accepts every request. -/
def releaseBuild : Runtime :=
  { NDEBUG := true, allocate_output := fun _ _ => true }

/-- A build with assertions enabled whose allocator accepts every request. -/
def debugBuild : Runtime :=
  { NDEBUG := false, allocate_output := fun _ _ => true }

/-- The `net_deriv` of the worked scenario: one frame, `nloc * ndescrpt = 4`. -/
def scenarioNetDeriv : Tensor Int :=
  { shape := [1, 4], flat := [1, 1, 1, 1], wf := by decide }

/-- The `in_deriv` of the worked scenario: each of the four components has
gradient `(1, 0, 0)`. -/
def scenarioInDeriv : Tensor Int :=
  { shape := [1, 12], flat := [1, 0, 0, 1, 0, 0, 1, 0, 0, 1, 0, 0], wf := by decide }

/-- The `nlist` of the worked scenario: the single neighbour of atom 0 is
atom 1. -/
def scenarioNlist : Tensor Int :=
  { shape := [1, 1], flat := [1], wf := by decide }

/-- The `natoms` of the worked scenario: `nloc = 1`, `nall = 2`, and a third
element. -/
def scenarioNatoms : Tensor Int :=
  Tensor.vector [1, 2, 1]

/-- A `natoms` with no local atom: `nloc = 0`, `nall = 0`, and a third
element. -/
def emptyNatoms : Tensor Int :=
  Tensor.vector [0, 0, 0]

/-- A `natoms` with two local atoms: `nloc = 2`, `nall = 2`, and a third
element. -/
def pairNatoms : Tensor Int :=
  Tensor.vector [2, 2, 2]

/-- The context `Compute` leaves behind when it reaches the end: one output
of shape `[nframes, 3 * nall]` and one kernel invocation. -/
def completed {α : Type} (op : ProdForceSeAOp) (net_deriv_tensor in_deriv_tensor : Tensor α)
    (nlist_tensor : Tensor Int) (nloc nall : Int) : OpKernelContext α :=
  { status := Status.OK
    outputs := [{ index := 0, shape := [net_deriv_tensor.dim_size 0, 3 * nall] }]
    launches := [{ device := op.device
                   force := { index := 0, shape := [net_deriv_tensor.dim_size 0, 3 * nall] }
                   net_deriv := net_deriv_tensor.flat
                   in_deriv := in_deriv_tensor.flat
                   nlist := nlist_tensor.flat
                   nloc := nloc
                   nall := nall
                   nnei := Int.tdiv (nlist_tensor.dim_size 1) nloc
                   ndescrpt := Int.tdiv (net_deriv_tensor.dim_size 1) nloc
                   n_a_sel := op.n_a_sel
                   n_a_shift := op.n_a_shift }] }

/-- Every condition under which `Compute` reaches the kernel, for an input
whose `natoms` starts with `nloc`, `nall`: the `OP_REQUIRES` conditions, a
divisor `nloc` other than zero, a successful allocation and, unless `NDEBUG`
is defined, an `assert` block without a false condition. -/
def Passes {α : Type} (rt : Runtime) (op : ProdForceSeAOp)
    (net_deriv_tensor in_deriv_tensor : Tensor α) (nlist_tensor natoms_tensor : Tensor Int)
    (nloc nall : Int) : Prop :=
  net_deriv_tensor.dims = 2 ∧ in_deriv_tensor.dims = 2 ∧ nlist_tensor.dims = 2 ∧
  natoms_tensor.dims = 1 ∧ natoms_tensor.dim_size 0 ≥ 3 ∧
  nloc ≠ 0 ∧
  net_deriv_tensor.dim_size 0 = in_deriv_tensor.dim_size 0 ∧
  net_deriv_tensor.dim_size 0 = nlist_tensor.dim_size 0 ∧
  nloc * Int.tdiv (net_deriv_tensor.dim_size 1) nloc * 3 = in_deriv_tensor.dim_size 1 ∧
  Int.tdiv (nlist_tensor.dim_size 1) nloc = op.n_a_sel + op.n_r_sel ∧
  0 = op.n_r_sel ∧
  rt.allocate_output 0 [net_deriv_tensor.dim_size 0, 3 * nall] = true ∧
  (rt.NDEBUG = true ∨
    firstFalse (asserts [net_deriv_tensor.dim_size 0, 3 * nall] net_deriv_tensor
      in_deriv_tensor nlist_tensor (net_deriv_tensor.dim_size 0) nloc nall
      (Int.tdiv (net_deriv_tensor.dim_size 1) nloc)
      (Int.tdiv (nlist_tensor.dim_size 1) nloc)) = none)

/-! ## Auxiliary facts -/

theorem natoms_cons (natoms_tensor : Tensor Int) (h1 : natoms_tensor.dims = 1)
    (h3 : natoms_tensor.dim_size 0 ≥ 3) :
    ∃ nloc nall third rest, natoms_tensor.flat = nloc :: nall :: third :: rest := by
  obtain ⟨shape, flat, wf⟩ := natoms_tensor
  simp only [Tensor.dims, Tensor.dim_size] at h1 h3
  match shape, h1, h3, wf with
  | [n], _, h3, wf =>
    simp at h3 wf
    match flat, wf with
    | a :: b :: c :: r, _ => exact ⟨a, b, c, r, rfl⟩
    | [a, b], wf => simp at wf; omega
    | [a], wf => simp at wf; omega
    | [], wf => simp at wf; omega

theorem Compute_read {α : Type} (rt : Runtime) (op : ProdForceSeAOp)
    (net_deriv_tensor in_deriv_tensor : Tensor α) (nlist_tensor natoms_tensor : Tensor Int)
    (h1 : net_deriv_tensor.dims = 2) (h2 : in_deriv_tensor.dims = 2)
    (h3 : nlist_tensor.dims = 2) (h4 : natoms_tensor.dims = 1)
    (h5 : natoms_tensor.dim_size 0 ≥ 3)
    (nloc nall : Int) (rest : List Int) (hflat : natoms_tensor.flat = nloc :: nall :: rest) :
    Compute rt op net_deriv_tensor in_deriv_tensor nlist_tensor natoms_tensor =
      if nloc = 0 then
        { status := Status.DivisionByZero, outputs := [], launches := [] }
      else if ¬ (net_deriv_tensor.dim_size 0 = in_deriv_tensor.dim_size 0) then
        { status := Status.InvalidArgument "number of samples should match",
          outputs := [], launches := [] }
      else if ¬ (net_deriv_tensor.dim_size 0 = nlist_tensor.dim_size 0) then
        { status := Status.InvalidArgument "number of samples should match",
          outputs := [], launches := [] }
      else if ¬ (nloc * Int.tdiv (net_deriv_tensor.dim_size 1) nloc * 3
          = in_deriv_tensor.dim_size 1) then
        { status := Status.InvalidArgument "number of descriptors should match",
          outputs := [], launches := [] }
      else if ¬ (Int.tdiv (nlist_tensor.dim_size 1) nloc = op.n_a_sel + op.n_r_sel) then
        { status := Status.InvalidArgument "number of neighbors should match",
          outputs := [], launches := [] }
      else if ¬ (0 = op.n_r_sel) then
        { status := Status.InvalidArgument
            "Rotational free only support all-angular information",
          outputs := [], launches := [] }
      else if ¬ (rt.allocate_output 0 [net_deriv_tensor.dim_size 0, 3 * nall] = true) then
        { status := Status.AllocationFailed, outputs := [], launches := [] }
      else
        match (if rt.NDEBUG then none else
            firstFalse (asserts [net_deriv_tensor.dim_size 0, 3 * nall] net_deriv_tensor
              in_deriv_tensor nlist_tensor (net_deriv_tensor.dim_size 0) nloc nall
              (Int.tdiv (net_deriv_tensor.dim_size 1) nloc)
              (Int.tdiv (nlist_tensor.dim_size 1) nloc))) with
        | some expr =>
          { status := Status.AssertionFailed expr,
            outputs := [{ index := 0, shape := [net_deriv_tensor.dim_size 0, 3 * nall] }],
            launches := [] }
        | none =>
          { status := Status.OK,
            outputs := [{ index := 0, shape := [net_deriv_tensor.dim_size 0, 3 * nall] }],
            launches :=
              [{ device := op.device
                 force := { index := 0, shape := [net_deriv_tensor.dim_size 0, 3 * nall] }
                 net_deriv := net_deriv_tensor.flat
                 in_deriv := in_deriv_tensor.flat
                 nlist := nlist_tensor.flat
                 nloc := nloc
                 nall := nall
                 nnei := Int.tdiv (nlist_tensor.dim_size 1) nloc
                 ndescrpt := Int.tdiv (net_deriv_tensor.dim_size 1) nloc
                 n_a_sel := op.n_a_sel
                 n_a_shift := op.n_a_shift }] } := by
  unfold Compute
  simp only [h1, h2, h3, h4, h5, not_true_eq_false, if_false, hflat]
  rfl

theorem Compute_early {α : Type} (rt : Runtime) (op : ProdForceSeAOp)
    (net_deriv_tensor in_deriv_tensor : Tensor α) (nlist_tensor natoms_tensor : Tensor Int)
    (h : ¬ (net_deriv_tensor.dims = 2 ∧ in_deriv_tensor.dims = 2 ∧ nlist_tensor.dims = 2 ∧
      natoms_tensor.dims = 1 ∧ natoms_tensor.dim_size 0 ≥ 3)) :
    Rejected (Compute rt op net_deriv_tensor in_deriv_tensor nlist_tensor natoms_tensor) := by
  unfold Compute
  by_cases h1 : net_deriv_tensor.dims = 2
  · by_cases h2 : in_deriv_tensor.dims = 2
    · by_cases h3 : nlist_tensor.dims = 2
      · by_cases h4 : natoms_tensor.dims = 1
        · by_cases h5 : natoms_tensor.dim_size 0 ≥ 3
          · exact absurd ⟨h1, h2, h3, h4, h5⟩ h
          · simp only [h1, h2, h3, h4, h5, not_true_eq_false, not_false_eq_true, if_false,
              if_true]
            exact ⟨⟨_, rfl⟩, rfl, rfl⟩
        · simp only [h1, h2, h3, h4, not_true_eq_false, not_false_eq_true, if_false, if_true]
          exact ⟨⟨_, rfl⟩, rfl, rfl⟩
      · simp only [h1, h2, h3, not_true_eq_false, not_false_eq_true, if_false, if_true]
        exact ⟨⟨_, rfl⟩, rfl, rfl⟩
    · simp only [h1, h2, not_true_eq_false, not_false_eq_true, if_false, if_true]
      exact ⟨⟨_, rfl⟩, rfl, rfl⟩
  · simp only [h1, not_false_eq_true, if_true]
    exact ⟨⟨_, rfl⟩, rfl, rfl⟩

theorem Compute_OK_inv {α : Type} (rt : Runtime) (op : ProdForceSeAOp)
    (net_deriv_tensor in_deriv_tensor : Tensor α) (nlist_tensor natoms_tensor : Tensor Int)
    (h : (Compute rt op net_deriv_tensor in_deriv_tensor nlist_tensor natoms_tensor).status
      = Status.OK) :
    ∃ nloc nall rest, natoms_tensor.flat = nloc :: nall :: rest ∧
      Passes rt op net_deriv_tensor in_deriv_tensor nlist_tensor natoms_tensor nloc nall ∧
      Compute rt op net_deriv_tensor in_deriv_tensor nlist_tensor natoms_tensor =
        completed op net_deriv_tensor in_deriv_tensor nlist_tensor nloc nall := by
  by_cases hr : (net_deriv_tensor.dims = 2 ∧ in_deriv_tensor.dims = 2 ∧ nlist_tensor.dims = 2 ∧
      natoms_tensor.dims = 1 ∧ natoms_tensor.dim_size 0 ≥ 3)
  · obtain ⟨h1, h2, h3, h4, h5⟩ := hr
    obtain ⟨nloc, nall, third, rest, hflat⟩ := natoms_cons natoms_tensor h4 h5
    refine ⟨nloc, nall, third :: rest, hflat, ?_⟩
    rw [Compute_read rt op _ _ _ _ h1 h2 h3 h4 h5 nloc nall _ hflat] at h ⊢
    split_ifs at h ⊢ with c0 c1 c2 c3 c4 c5 c6 c7
    · exact ⟨⟨h1, h2, h3, h4, h5, c0, c1, c2, c3, c4, c5, c6, Or.inl c7⟩, rfl⟩
    · revert h
      generalize hff : firstFalse (asserts _ _ _ _ _ _ _ _ _) = ff
      intro h
      cases ff with
      | none => exact ⟨⟨h1, h2, h3, h4, h5, c0, c1, c2, c3, c4, c5, c6, Or.inr hff⟩, rfl⟩
      | some e => cases h
  · obtain ⟨⟨msg, hm⟩, _, _⟩ := Compute_early rt op _ _ _ _ hr
    rw [hm] at h
    cases h

theorem Compute_of_passes {α : Type} (rt : Runtime) (op : ProdForceSeAOp)
    (net_deriv_tensor in_deriv_tensor : Tensor α) (nlist_tensor natoms_tensor : Tensor Int)
    (nloc nall : Int) (rest : List Int) (hflat : natoms_tensor.flat = nloc :: nall :: rest)
    (h : Passes rt op net_deriv_tensor in_deriv_tensor nlist_tensor natoms_tensor nloc nall) :
    Compute rt op net_deriv_tensor in_deriv_tensor nlist_tensor natoms_tensor =
      completed op net_deriv_tensor in_deriv_tensor nlist_tensor nloc nall := by
  obtain ⟨h1, h2, h3, h4, h5, c0, c1, c2, c3, c4, c5, c6, c7⟩ := h
  rw [Compute_read rt op _ _ _ _ h1 h2 h3 h4 h5 nloc nall _ hflat]
  rw [if_neg c0, if_neg (not_not.mpr c1), if_neg (not_not.mpr c2), if_neg (not_not.mpr c3),
    if_neg (not_not.mpr c4), if_neg (not_not.mpr c5), if_neg (not_not.mpr c6)]
  rcases c7 with c7 | c7
  · rw [if_pos c7]
    rfl
  · rw [c7]
    split_ifs <;> rfl

theorem Compute_OK_or_no_launch {α : Type} (rt : Runtime) (op : ProdForceSeAOp)
    (net_deriv_tensor in_deriv_tensor : Tensor α) (nlist_tensor natoms_tensor : Tensor Int) :
    (Compute rt op net_deriv_tensor in_deriv_tensor nlist_tensor natoms_tensor).status
      = Status.OK ∨
    (Compute rt op net_deriv_tensor in_deriv_tensor nlist_tensor natoms_tensor).launches
      = [] := by
  by_cases hr : (net_deriv_tensor.dims = 2 ∧ in_deriv_tensor.dims = 2 ∧ nlist_tensor.dims = 2 ∧
      natoms_tensor.dims = 1 ∧ natoms_tensor.dim_size 0 ≥ 3)
  · obtain ⟨h1, h2, h3, h4, h5⟩ := hr
    obtain ⟨nloc, nall, third, rest, hflat⟩ := natoms_cons natoms_tensor h4 h5
    rw [Compute_read rt op _ _ _ _ h1 h2 h3 h4 h5 nloc nall _ hflat]
    split_ifs with c0 c1 c2 c3 c4 c5 c6 c7
    all_goals first | (right; rfl) | skip
    · left; rfl
    · generalize firstFalse (asserts _ _ _ _ _ _ _ _ _) = ff
      cases ff with
      | none => left; rfl
      | some e => right; rfl
  · obtain ⟨_, _, hl⟩ := Compute_early rt op _ _ _ _ hr
    exact Or.inr hl

theorem Compute_launch_OK {α : Type} (rt : Runtime) (op : ProdForceSeAOp)
    (net_deriv_tensor in_deriv_tensor : Tensor α) (nlist_tensor natoms_tensor : Tensor Int)
    (h : (Compute rt op net_deriv_tensor in_deriv_tensor nlist_tensor natoms_tensor).launches
      ≠ []) :
    (Compute rt op net_deriv_tensor in_deriv_tensor nlist_tensor natoms_tensor).status
      = Status.OK := by
  rcases Compute_OK_or_no_launch rt op net_deriv_tensor in_deriv_tensor nlist_tensor
    natoms_tensor with h1 | h1
  · exact h1
  · exact absurd h1 h

/-- C2, evaluated at an input with `n_r_sel = 1` and `natoms = [0, 0, 0]`:
the rank checks and the length check pass, `nloc` is zero, and `Compute` ends
in the division of line 54, before the check of `n_r_sel` on line 63 is
reached; it does not end with an `InvalidArgument` error. -/
theorem C2_division_precedes_n_r_sel_check (rt : Runtime) :
    (ProdForceSeAOp.construct Device.CPU 0 1).n_r_sel ≠ 0 ∧
    Compute rt (ProdForceSeAOp.construct Device.CPU 0 1) scenarioNetDeriv scenarioInDeriv
      scenarioNlist emptyNatoms =
      { status := Status.DivisionByZero, outputs := [], launches := [] } :=
  ⟨by decide, rfl⟩

/-- C5, evaluated at `nloc = 2` with a `net_deriv` row of width 9, an
`in_deriv` row of width 24 and an `nlist` row of width 2 (`n_a_sel = 1`,
`n_r_sel = 0`): `ndescrpt = 9 / 2 = 4`, every `OP_REQUIRES` passes although
`nloc * ndescrpt = 8` is not 9.  With `NDEBUG` the kernel is invoked; without
it the assertion of line 85 aborts.  No argument error is reported. -/
theorem C5_net_deriv_width_not_validated :
    (Compute releaseBuild (ProdForceSeAOp.construct Device.CPU 1 0)
      (Tensor.fill [1, 9] (0 : Int)) (Tensor.fill [1, 24] (0 : Int))
      (Tensor.fill [1, 2] (0 : Int)) pairNatoms).status = Status.OK ∧
    (Compute releaseBuild (ProdForceSeAOp.construct Device.CPU 1 0)
      (Tensor.fill [1, 9] (0 : Int)) (Tensor.fill [1, 24] (0 : Int))
      (Tensor.fill [1, 2] (0 : Int)) pairNatoms).launches.map
        (fun call => (call.nloc, call.ndescrpt, decide (call.nloc * call.ndescrpt = 9)))
      = [(2, 4, false)] ∧
    (Compute debugBuild (ProdForceSeAOp.construct Device.CPU 1 0)
      (Tensor.fill [1, 9] (0 : Int)) (Tensor.fill [1, 24] (0 : Int))
      (Tensor.fill [1, 2] (0 : Int)) pairNatoms).status =
      Status.AssertionFailed "nloc * ndescrpt == net_deriv_tensor.shape().dim_size(1)" := by
  decide

/-- C6, evaluated at `nloc = 2` with an `nlist` row of width 3, a `net_deriv`
row of width 8 and an `in_deriv` row of width 24 (`n_a_sel = 1`,
`n_r_sel = 0`): `nnei = 3 / 2 = 1`, every `OP_REQUIRES` passes although
`nloc * nnei = 2` is not 3.  With `NDEBUG` the kernel is invoked; without it
the assertion of line 87 aborts.  No argument error is reported. -/
theorem C6_nlist_width_not_validated :
    (Compute releaseBuild (ProdForceSeAOp.construct Device.CPU 1 0)
      (Tensor.fill [1, 8] (0 : Int)) (Tensor.fill [1, 24] (0 : Int))
      (Tensor.fill [1, 3] (0 : Int)) pairNatoms).status = Status.OK ∧
    (Compute releaseBuild (ProdForceSeAOp.construct Device.CPU 1 0)
      (Tensor.fill [1, 8] (0 : Int)) (Tensor.fill [1, 24] (0 : Int))
      (Tensor.fill [1, 3] (0 : Int)) pairNatoms).launches.map
        (fun call => (call.nloc, call.nnei, decide (call.nloc * call.nnei = 3)))
      = [(2, 1, false)] ∧
    (Compute debugBuild (ProdForceSeAOp.construct Device.CPU 1 0)
      (Tensor.fill [1, 8] (0 : Int)) (Tensor.fill [1, 24] (0 : Int))
      (Tensor.fill [1, 3] (0 : Int)) pairNatoms).status =
      Status.AssertionFailed "nloc * nnei == nlist_tensor.shape().dim_size(1)" := by
  decide

/-- C7, evaluated at `nloc = 1` with a `net_deriv` row of width 5, an
`in_deriv` row of width 15 and an `nlist` row of width 1 (`n_a_sel = 1`,
`n_r_sel = 0`): `ndescrpt = 5` is not a multiple of 4 and `nnei = 1`, yet
every `OP_REQUIRES` passes.  With `NDEBUG` the kernel is invoked with
`ndescrpt = 5` and `n_a_shift = 4`; without it the assertion of line 88
aborts. -/
theorem C7_descriptor_width_not_validated :
    (Compute releaseBuild (ProdForceSeAOp.construct Device.CPU 1 0)
      (Tensor.fill [1, 5] (0 : Int)) (Tensor.fill [1, 15] (0 : Int))
      scenarioNlist scenarioNatoms).status = Status.OK ∧
    (Compute releaseBuild (ProdForceSeAOp.construct Device.CPU 1 0)
      (Tensor.fill [1, 5] (0 : Int)) (Tensor.fill [1, 15] (0 : Int))
      scenarioNlist scenarioNatoms).launches.map
        (fun call => (call.ndescrpt, call.nnei, call.n_a_shift))
      = [(5, 1, 4)] ∧
    (Compute debugBuild (ProdForceSeAOp.construct Device.CPU 1 0)
      (Tensor.fill [1, 5] (0 : Int)) (Tensor.fill [1, 15] (0 : Int))
      scenarioNlist scenarioNatoms).status =
      Status.AssertionFailed "nnei * 4 == ndescrpt" := by
  decide

/-- C8 fails on the worked scenario of the specification: `natoms` has three
elements and `nloc = natoms[0] = 1 < 3`, yet `Compute` is not rejected; it
invokes the kernel. -/
theorem C8_counterexample :
    ¬ (scenarioNatoms.flat.headD 0 < 3 →
      Rejected (Compute debugBuild (ProdForceSeAOp.construct Device.CPU 1 0) scenarioNetDeriv
        scenarioInDeriv scenarioNlist scenarioNatoms) ∧
      (Compute debugBuild (ProdForceSeAOp.construct Device.CPU 1 0) scenarioNetDeriv
        scenarioInDeriv scenarioNlist scenarioNatoms).launches = []) := by
  intro h
  have h2 := (h (by decide)).2
  revert h2
  decide

/-- C8, amended: the check of line 49 is on the number of elements of
`natoms`, not on `nloc`.  When `natoms` has fewer than 3 elements `Compute`
ends with an `InvalidArgument` error without allocating an output or invoking
the kernel; and whenever the kernel is invoked, `natoms` is a vector of at
least 3 elements. -/
theorem C8_natoms_length_checked {α : Type} (rt : Runtime) (device : Device)
    (n_a_sel n_r_sel : Int) (net_deriv_tensor in_deriv_tensor : Tensor α)
    (nlist_tensor natoms_tensor : Tensor Int) :
    (natoms_tensor.flat.length < 3 →
      Rejected (Compute rt (ProdForceSeAOp.construct device n_a_sel n_r_sel) net_deriv_tensor
        in_deriv_tensor nlist_tensor natoms_tensor)) ∧
    ((Compute rt (ProdForceSeAOp.construct device n_a_sel n_r_sel) net_deriv_tensor
        in_deriv_tensor nlist_tensor natoms_tensor).launches ≠ [] →
      natoms_tensor.shape = [natoms_tensor.flat.length] ∧ 3 ≤ natoms_tensor.flat.length) := by
  have key : natoms_tensor.dims = 1 → natoms_tensor.dim_size 0 ≥ 3 →
      natoms_tensor.shape = [natoms_tensor.flat.length] ∧ 3 ≤ natoms_tensor.flat.length := by
    intro h4 h5
    obtain ⟨shape, flat, wf⟩ := natoms_tensor
    simp only [Tensor.dims, Tensor.dim_size] at h4 h5
    match shape, h4, h5, wf with
    | [n], _, h5, wf =>
      simp at h5 wf
      simp only [wf]
      exact ⟨trivial, h5⟩
  constructor
  · intro hlen
    apply Compute_early
    intro hr
    have := (key hr.2.2.2.1 hr.2.2.2.2).2
    omega
  · intro hl
    have hOK := Compute_launch_OK rt _ _ _ _ _ hl
    obtain ⟨nloc, nall, rest, hflat, hp, _⟩ := Compute_OK_inv rt _ _ _ _ _ hOK
    exact key hp.2.2.2.1 hp.2.2.2.2.1

/-- Witness of C8, amended: a `natoms` of two elements is rejected, and the
worked scenario, whose `natoms` has three, invokes the kernel. -/
theorem C8_natoms_length_checked_witness :
    Rejected (Compute releaseBuild (ProdForceSeAOp.construct Device.CPU 1 0) scenarioNetDeriv
      scenarioInDeriv scenarioNlist (Tensor.vector [1, 2])) ∧
    (scenarioNatoms.shape = [scenarioNatoms.flat.length] ∧ 3 ≤ scenarioNatoms.flat.length) :=
  ⟨(C8_natoms_length_checked releaseBuild Device.CPU 1 0 scenarioNetDeriv scenarioInDeriv
      scenarioNlist (Tensor.vector [1, 2])).1 (by decide),
   (C8_natoms_length_checked releaseBuild Device.CPU 1 0 scenarioNetDeriv scenarioInDeriv
      scenarioNlist scenarioNatoms).2 (by decide)⟩

/-- C10, evaluated at an input without local atoms, `natoms = [0, 0, 0]`,
with empty rows: the rank checks and the length check pass, nothing compares
`nloc` with zero, and the division of line 54 divides by zero. -/
theorem C10_division_by_zero_reached (rt : Runtime) :
    emptyNatoms.dims = 1 ∧ emptyNatoms.dim_size 0 ≥ 3 ∧ emptyNatoms.flat[0]? = some 0 ∧
    (Compute rt (ProdForceSeAOp.construct Device.CPU 0 0) (Tensor.fill [1, 0] (0 : Int))
      (Tensor.fill [1, 0] (0 : Int)) (Tensor.fill [1, 0] (0 : Int)) emptyNatoms).status
      = Status.DivisionByZero :=
  ⟨by decide, by decide, rfl, rfl⟩

end ProdForceSeA
